import Mathlib

/-!
Verification of the central-api download broker and agent store
(`src/download.rs`, `src/db.rs`) against its natural-language
specification, via a shallow embedding in Lean.

Conventions of the embedding:
* `state.servers` (the Agent Registry, a `tokio::sync::RwLock<HashMap>`)
  is an association list from server id to the id of its live link
  (`mpsc::Sender<Message>` handle).
* `state.requests` (the Request Correlation Table) is an association list
  from download ticket to the per-ticket sink; the sink models the
  `mpsc::channel(100)` pair: its `buffer` is the FIFO queue of chunks the
  producer has sent and the consumer has not yet received, `closed` records
  that the producer half has been dropped (end-of-stream).
* In `__download` the first read guard on `state.servers` (`let reader =
  state.servers.read().await`) is a local that is dropped only at the end
  of the handler body, so it is held across the second
  `state.servers.read().await`; a writer cannot intervene between the two
  reads, hence both reads observe the same map.  The model therefore uses
  the one map `st.servers` at both access points, while still performing
  the two separate accesses (contains_key, then get) and recording each
  lock acquisition as an event.
* Randomness (`rand::thread_rng().gen()`) and the result of the channel
  `send` (which fails exactly when the receiving half was dropped) are
  passed in as explicit parameters.
* Panics (`Option::unwrap` on `None`, `Result::unwrap` on `Err`) are
  modelled as dedicated outcome constructors: a panicking handler produces
  no `HttpResponse`.
-/

abbrev ServerId := Nat

abbrev FileId := Nat

abbrev DownloadId := Nat

abbrev LinkId := Nat

abbrev Chunk := List Nat

/-- The per-ticket sink: the bounded mpsc channel created by
`mpsc::channel(100)` in `__download`.  `buffer` is the FIFO queue of chunks
in flight; `closed` is true once the producer half has been dropped. -/
structure Sink where
  sinkId : Nat
  buffer : List Chunk
  closed : Bool
deriving DecidableEq, BEq

/-- A freshly opened sink: empty buffer, producer still live. -/
def freshSink (i : Nat) : Sink := ⟨i, [], false⟩

/-- Shared process state (`State` in the source): the Agent Registry
`servers` and the Request Correlation Table `requests`. -/
structure SrvState where
  servers : List (ServerId × LinkId)
  requests : List (DownloadId × Sink)
  base_url : String
deriving DecidableEq, BEq

/-- `HashMap::insert` on the Correlation Table: any previous binding of the
key is replaced by the new one. -/
def insertRequest (table : List (DownloadId × Sink)) (t : DownloadId) (s : Sink) :
    List (DownloadId × Sink) :=
  (t, s) :: table.filter (fun p => p.1 != t)

/-- Body of an HTTP response: a fixed string, or the streaming body backed
by the sink registered under the given ticket. -/
inductive Body where
  | fixed (s : String)
  | stream (t : DownloadId)
deriving DecidableEq, BEq

structure HttpResponse where
  status : Nat
  contentType : String
  body : Body
deriving DecidableEq, BEq

/-- Observable effects of one `__download` call, in program order. -/
inductive Event where
  | acquireServersRead
  | acquireRequestsWrite
  | sendUploadTo (link : LinkId) (f : FileId) (callback : String)
deriving DecidableEq, BEq

/-- What the handler produced: an HTTP response, or a panic at one of the
two `unwrap` sites on the online path. -/
inductive Outcome where
  | response (r : HttpResponse)
  | panickedAtLinkFetch
  | panickedAtSend
deriving DecidableEq, BEq

structure DownloadResult where
  outcome : Outcome
  state : SrvState
  events : List Event
deriving DecidableEq, BEq

/-- The fixed 404 body of the offline branch. -/
def notFoundBody : String :=
  "requested resource not found, the server may not be connected"

/-- Shallow embedding of `__download` (src/download.rs, lines 17-67).

Control flow mirrors the source: read-acquire `state.servers` and test
`contains_key`; if online, create the channel, draw a random
`download_id`, write-acquire `state.requests` and insert the sender,
format the callback address, read-acquire `state.servers` a second time,
`get(&server_id).unwrap()`, `send(Message::UploadTo(file_id, msg))
.unwrap()`, and return a 200 `text/html` streaming response over the
receiver; otherwise return the fixed 404 `text/html` body.

`rngVal` is the value `rand::thread_rng().gen()` returns, `sinkId`
identifies the freshly created channel, and `sendOk` is whether the
channel `send` to the agent link succeeds.  Both registry reads use the
same `st.servers` because the first read guard is held across the handler
body (see the header comment). -/
def __download (st : SrvState) (server_id : ServerId) (file_id : FileId)
    (rngVal : DownloadId) (sinkId : Nat) (sendOk : Bool) : DownloadResult :=
  let server_online := (st.servers.lookup server_id).isSome
  if server_online then
    let download_id := rngVal
    let requests2 := insertRequest st.requests download_id (freshSink sinkId)
    let msg := st.base_url ++ "/upload/" ++ toString download_id
    match st.servers.lookup server_id with
    | none =>
        ⟨Outcome.panickedAtLinkFetch, { st with requests := requests2 },
          [Event.acquireServersRead, Event.acquireRequestsWrite, Event.acquireServersRead]⟩
    | some link =>
        if sendOk then
          ⟨Outcome.response ⟨200, "text/html", Body.stream download_id⟩,
            { st with requests := requests2 },
            [Event.acquireServersRead, Event.acquireRequestsWrite,
              Event.acquireServersRead, Event.sendUploadTo link file_id msg]⟩
        else
          ⟨Outcome.panickedAtSend, { st with requests := requests2 },
            [Event.acquireServersRead, Event.acquireRequestsWrite,
              Event.acquireServersRead, Event.sendUploadTo link file_id msg]⟩
  else
    ⟨Outcome.response ⟨404, "text/html", Body.fixed notFoundBody⟩, st,
      [Event.acquireServersRead]⟩

/-- The async stream generator of `__download` (lines 47-51) registers no
cleanup: it is a plain `while let Some(v) = rx.recv().await` loop with no
drop hook, so abandoning the HTTP response (caller disconnect drops the
stream and the receiver) has no effect on the shared state; in particular
the Correlation Table entry holding the sender is untouched. -/
def abandonStream (st : SrvState) : SrvState := st

/-- Recognizes the event of read-acquiring the Agent Registry lock. -/
def isServersReadAcq : Event → Bool
  | Event.acquireServersRead => true
  | _ => false

/-- How many times a run read-acquired the Agent Registry lock. -/
def registryReadAcquisitions (evs : List Event) : Nat :=
  (evs.filter isServersReadAcq).length

/-- Sending one chunk into the sink channel (`tx.send`): appended at the
back of the FIFO buffer. -/
def Sink.push (s : Sink) (c : Chunk) : Sink := ⟨s.sinkId, s.buffer ++ [c], s.closed⟩

/-- Replace the sink registered under a ticket, leaving other entries
untouched. -/
def updateSink (table : List (DownloadId × Sink)) (t : DownloadId) (s : Sink) :
    List (DownloadId × Sink) :=
  table.map (fun p => if p.1 = t then (t, s) else p)

inductive RouteError where
  | UnknownTicket
deriving DecidableEq, BEq

/-- Modelled from the spec: `route(ticket, chunk)` of the Request
Correlation Table (§4.2).  The agent-push side that performs the routing
lives outside `src/` (the websocket upload handler); per the spec it
delivers one chunk into the sink registered for the ticket — here, a send
on the stored channel half, which appends to the FIFO buffer — and fails
with `UnknownTicket` when no sink is registered. -/
def route (table : List (DownloadId × Sink)) (t : DownloadId) (c : Chunk) :
    Except RouteError (List (DownloadId × Sink)) :=
  match table.lookup t with
  | none => Except.error RouteError.UnknownTicket
  | some s => Except.ok (updateSink table t (s.push c))

/-- Route a sequence of chunks for one ticket, in order. -/
def routeAll (table : List (DownloadId × Sink)) (t : DownloadId) :
    List Chunk → Except RouteError (List (DownloadId × Sink))
  | [] => Except.ok table
  | c :: rest =>
    match route table t c with
    | Except.error e => Except.error e
    | Except.ok table2 => routeAll table2 t rest

/-- The streaming body of `__download` (src/download.rs lines 47-51): the
`while let Some(v) = rx.recv().await` loop yields each received chunk;
`recv` pops the front of the FIFO buffer and returns `None` once the
buffer is exhausted and the producer has signalled completion, ending the
stream. -/
def drainStream (s : Sink) : List Chunk :=
  match s with
  | ⟨_, [], _⟩ => []
  | ⟨i, c :: rest, cl⟩ => c :: drainStream ⟨i, rest, cl⟩
termination_by s.buffer.length
decreasing_by simp

/-- The durable Agent record (`crate::structs::Agent`; `structs.rs` is not
under `src/`, fields per spec §3 and the schema of §6: `id` store-assigned,
`unique_id` caller-supplied, `created_at` set once at insert, `last_signin`
updated on sign-in).  `Option` fields model nullable columns; `created_at`
is populated when it is `some`. -/
structure Agent where
  id : Nat
  unique_id : String
  created_at : Option Nat
  last_signin : Option Nat
deriving DecidableEq, BEq

/-- Modelled from the spec: the store-level failure taxonomy of §7 — the
`crate::error::Error` enum is not under `src/`.  `PoolExhausted` is the
pool-timeout failure (`Error::DBPool`), `DuplicateKey` the store-enforced
uniqueness violation, `QueryError` any other engine failure
(`Error::DBQuery`). -/
inductive DbError where
  | DuplicateKey
  | PoolExhausted
  | QueryError
deriving DecidableEq, BEq

/-- Maximum number of open db connections (src/db.rs). -/
def DB_POOL_MAX_OPEN : Nat := 32

/-- Maximum number of idle db connections (src/db.rs). -/
def DB_POOL_MAX_IDLE : Nat := 8

/-- How long we will wait for a db connection before timing out
(src/db.rs). -/
def DB_POOL_TIMEOUT_SECONDS : Nat := 15

structure PoolConfig where
  maxOpen : Nat
  maxIdle : Nat
  getTimeoutSeconds : Option Nat
deriving DecidableEq, BEq

/-- The configuration fields `create_pool` reads (`crate::Config`). -/
structure DbConfig where
  database_ip : String
  database_port : Nat
deriving DecidableEq

structure DBPool where
  config : PoolConfig
  connString : String
deriving DecidableEq

/-- `create_pool` (src/db.rs): builds the pool with `max_open`, `max_idle`
and `get_timeout` set from the three constants, over a connection string
formatted from the configured address and port. -/
def create_pool (cfg : DbConfig) : DBPool :=
  ⟨⟨DB_POOL_MAX_OPEN, DB_POOL_MAX_IDLE, some DB_POOL_TIMEOUT_SECONDS⟩,
    "postgres://postgres@" ++ cfg.database_ip ++ ":" ++ toString cfg.database_port
      ++ "/postgres"⟩

/-- Whether the pool can hand out a connection within its timeout on this
call; an explicit parameter of each operation, since the pool's load is
external to the store code. -/
inductive PoolAcquire where
  | ok
  | timedOut
deriving DecidableEq

/-- `get_db_con` (src/db.rs): `pool.get().await.map_err(Error::DBPool)`.
Modelled from the spec: the mobc pool waits at most the configured
`get_timeout` and then returns an error rather than queueing unboundedly;
that error is mapped to the pool-exhausted failure. -/
def get_db_con (acq : PoolAcquire) : Except DbError Unit :=
  match acq with
  | PoolAcquire.ok => Except.ok ()
  | PoolAcquire.timedOut => Except.error DbError.PoolExhausted

/-- Modelled from the spec: the state of the external relational store —
the `agents` table plus the sequences behind store-assigned values (`id`,
`created_at`). -/
structure Store where
  rows : List Agent
  nextId : Nat
  clock : Nat
deriving DecidableEq

/-- The single-quote character, written by code point to keep SQL literal
text explicit. -/
def sqChar : Char := Char.ofNat 39

/-- A single-quote as a one-character string. -/
def sqStr : String := String.mk [sqChar]

inductive Search where
  | Id (i : Nat)
  | UniqueId (s : String)

/-- `Search::get_search_term` (src/db.rs lines 63-69): the two
`format!` calls produce exactly `id = {i}` and `unique_id = '{s}'`; the
caller-supplied string is interpolated verbatim between two single
quotes. -/
def Search.get_search_term : Search → String
  | Search.Id i => "id = " ++ toString i
  | Search.UniqueId s => "unique_id = " ++ sqStr ++ s ++ sqStr

/-- The SQL text `search_database` executes (src/db.rs lines 84-94): the
fixed SELECT with the search term spliced into the WHERE clause. -/
def search_query (search : Search) : String :=
  "\n        SELECT * from agents\n        WHERE " ++ search.get_search_term
    ++ "\n        ORDER BY created_at DESC\n    "

/-- Strip an expected prefix from a character list. -/
def stripPrefixChars : List Char → List Char → Option (List Char)
  | [], cs => some cs
  | _ :: _, [] => none
  | p :: ps, c :: cs => if p = c then stripPrefixChars ps cs else none

/-- Split a character list at the first single quote: the quote-free part
before it and the remainder after it. -/
def splitAtQuote : List Char → Option (List Char × List Char)
  | [] => none
  | c :: cs =>
    if c = sqChar then some ([], cs)
    else
      match splitAtQuote cs with
      | none => none
      | some (l, r) => some (c :: l, r)

/-- Modelled from the spec: whether the WHERE clause the engine receives is
a plain equality match on `unique_id`, and on what literal.  Per SQL
syntax a string literal is delimited by single quotes and ends at the
first quote, so the clause is a plain equality exactly when it reads
`unique_id = ` quote, a quote-free literal, a closing quote, and nothing
after it. -/
def parseUniqueIdEq (clause : String) : Option String :=
  match stripPrefixChars ("unique_id = " ++ sqStr).toList clause.toList with
  | none => none
  | some rest =>
    match splitAtQuote rest with
    | none => none
    | some (lit, []) => some (String.mk lit)
    | some (_, _ :: _) => none

/-- Modelled from the spec: recognize the clause `id = {n}`. -/
def parseIdEq (clause : String) : Option Nat :=
  match stripPrefixChars "id = ".toList clause.toList with
  | none => none
  | some rest => (String.mk rest).toNat?

/-- Insert keeping the newest `created_at` first. -/
def insertByCreatedAtDesc (a : Agent) : List Agent → List Agent
  | [] => [a]
  | b :: bs =>
    if b.created_at.getD 0 ≤ a.created_at.getD 0 then a :: b :: bs
    else b :: insertByCreatedAtDesc a bs

/-- `ORDER BY created_at DESC`: newest first. -/
def sortByCreatedAtDesc (l : List Agent) : List Agent :=
  l.foldr insertByCreatedAtDesc []

/-- Modelled from the spec: the external engine executing the SELECT built
by `search_database` — rows satisfying the WHERE clause, newest first.
Only the two clause shapes the source can build from a quote-free input
are given semantics; any other text (for instance a clause whose
interpolated input spliced in further tokens) is not a plain equality
match, and the model rejects it. -/
def runSelect (st : Store) (clause : String) : Except DbError (List Agent) :=
  match parseUniqueIdEq clause with
  | some lit =>
      Except.ok (sortByCreatedAtDesc (st.rows.filter (fun a => a.unique_id == lit)))
  | none =>
      match parseIdEq clause with
      | some i =>
          Except.ok (sortByCreatedAtDesc (st.rows.filter (fun a => a.id == i)))
      | none => Except.error DbError.QueryError

/-- `search_database` (src/db.rs lines 80-100): acquire a pooled
connection, execute the query whose WHERE clause is
`search.get_search_term()` (see `search_query` for the executed text), and
map the rows back. -/
def search_database (acq : PoolAcquire) (st : Store) (search : Search) :
    Except DbError (List Agent) :=
  match get_db_con acq with
  | Except.error e => Except.error e
  | Except.ok _ => runSelect st search.get_search_term

/-- `Search::find` (src/db.rs lines 71-78): run the search, `None` on an
empty result, else the first row. -/
def Search.find (search : Search) (acq : PoolAcquire) (st : Store) :
    Except DbError (Option Agent) :=
  match search_database acq st search with
  | Except.error e => Except.error e
  | Except.ok [] => Except.ok none
  | Except.ok (a :: _) => Except.ok (some a)

/-- `add_agent` (src/db.rs lines 102-117): acquire a pooled connection and
run `INSERT INTO agents (unique_id) VALUES ($1) RETURNING *` —
parameterized, so the input is not interpolated.  The store side is
modelled from the spec: the unique constraint on `unique_id` rejects a
duplicate with `DuplicateKey`; otherwise the new row receives the next
`id` and `created_at` is set at insert. -/
def add_agent (acq : PoolAcquire) (st : Store) (uid : String) :
    Except DbError (Agent × Store) :=
  match get_db_con acq with
  | Except.error e => Except.error e
  | Except.ok _ =>
    if st.rows.any (fun a => a.unique_id == uid) then
      Except.error DbError.DuplicateKey
    else
      let a : Agent := ⟨st.nextId, uid, some st.clock, none⟩
      Except.ok (a, ⟨st.rows ++ [a], st.nextId + 1, st.clock + 1⟩)

/-- `update_agent` (src/db.rs lines 119-139): parameterized UPDATE of
`last_signin` by id; `query_one` fails when no row matches, surfaced as a
query failure. -/
def update_agent (acq : PoolAcquire) (st : Store) (id : Nat) (ts : Nat) :
    Except DbError (Agent × Store) :=
  match get_db_con acq with
  | Except.error e => Except.error e
  | Except.ok _ =>
    match st.rows.find? (fun a => a.id == id) with
    | none => Except.error DbError.QueryError
    | some a =>
      let a2 : Agent := ⟨a.id, a.unique_id, a.created_at, some ts⟩
      Except.ok (a2, { st with rows := st.rows.map (fun b => if b.id = id then a2 else b) })

/-- `delete_agent` (src/db.rs lines 141-153): parameterized DELETE by id,
returning the number of rows removed. -/
def delete_agent (acq : PoolAcquire) (st : Store) (id : Nat) :
    Except DbError (Nat × Store) :=
  match get_db_con acq with
  | Except.error e => Except.error e
  | Except.ok _ =>
    Except.ok ((st.rows.filter (fun a => a.id == id)).length,
      { st with rows := st.rows.filter (fun a => !(a.id == id)) })

/-- A concrete caller-supplied unique id containing single quotes that
splices an OR-tautology into the clause. -/
def injected : String :=
  "a" ++ sqStr ++ " OR " ++ sqStr ++ "1" ++ sqStr ++ "=" ++ sqStr ++ "1"

/-- Claim C1: for every agent id absent from the Agent Registry,
`__download` returns the fixed 404 `text/html` body, mutates nothing,
acquires only the registry read lock, and sends nothing over any Agent
Link; moreover every non-200 HTTP response the handler can produce, over
all inputs, is exactly that 404 — the only failure path exposed to the
HTTP caller. -/
theorem C1_offline_not_found (st : SrvState) (sid : ServerId) (fid : FileId)
    (rng : DownloadId) (sk : Nat) (sOk : Bool)
    (hoff : st.servers.lookup sid = none) :
    (__download st sid fid rng sk sOk).outcome
        = Outcome.response ⟨404, "text/html", Body.fixed notFoundBody⟩ ∧
    (__download st sid fid rng sk sOk).state = st ∧
    (__download st sid fid rng sk sOk).events = [Event.acquireServersRead] ∧
    (∀ (st2 : SrvState) (sid2 : ServerId) (fid2 : FileId) (rng2 : DownloadId)
        (sk2 : Nat) (sOk2 : Bool) (r : HttpResponse),
      (__download st2 sid2 fid2 rng2 sk2 sOk2).outcome = Outcome.response r →
      r.status = 200 ∨ r = ⟨404, "text/html", Body.fixed notFoundBody⟩) := by
  refine ⟨?_, ?_, ?_, ?_⟩
  · simp [__download, hoff]
  · simp [__download, hoff]
  · simp [__download, hoff]
  · intro st2 sid2 fid2 rng2 sk2 sOk2 r hr
    by_cases hon : (st2.servers.lookup sid2).isSome
    · rcases Option.isSome_iff_exists.mp hon with ⟨l, hl⟩
      by_cases hs : sOk2
      · left
        simp [__download, hl, hs] at hr
        simp [← hr]
      · simp [__download, hl, hs] at hr
    · right
      rw [Option.not_isSome_iff_eq_none] at hon
      simp [__download, hon] at hr
      simp [← hr]

/-- Witness for C1 at a concrete offline state. -/
theorem C1_offline_not_found_witness :
    (__download ⟨[(42, 5)], [], "http://h"⟩ 7 1 9 0 true).outcome
        = Outcome.response ⟨404, "text/html", Body.fixed notFoundBody⟩ :=
  (C1_offline_not_found ⟨[(42, 5)], [], "http://h"⟩ 7 1 9 0 true (by decide)).1

/-- Looking a key up after filtering out bindings of a different key is the
same as looking it up in the original table. -/
theorem lookup_filter_ne (table : List (DownloadId × Sink)) (t u : DownloadId)
    (h : t ≠ u) :
    (table.filter (fun p => p.1 != u)).lookup t = table.lookup t := by
  induction table with
  | nil => rfl
  | cons kv rest ih =>
    by_cases hk : kv.1 = u
    · have hbe : (kv.1 != u) = false := by simp [hk]
      have hne : (t == kv.1) = false := by simp [hk, h]
      simp [List.filter_cons, hbe, List.lookup, hne, ih]
    · have hbe : (kv.1 != u) = true := by simp [hk]
      by_cases ht : t = kv.1
      · simp [List.filter_cons, hbe, List.lookup, ht]
      · have hne : (t == kv.1) = false := by simp [ht]
        simp [List.filter_cons, hbe, List.lookup, hne, ih]

/-- Filtering for a key after filtering it out yields nothing. -/
theorem filter_eq_filter_ne (table : List (DownloadId × Sink)) (u : DownloadId) :
    (table.filter (fun p => p.1 != u)).filter (fun p => p.1 == u) = [] := by
  induction table with
  | nil => rfl
  | cons kv rest ih =>
    by_cases hk : kv.1 = u
    · have hbe : (kv.1 != u) = false := by simp [hk]
      simp [List.filter_cons, hbe, ih]
    · have hbe : (kv.1 != u) = true := by simp [hk]
      have hbe2 : (kv.1 == u) = false := by simp [hk]
      simp [List.filter_cons, hbe, hbe2, ih]

/-- After `insertRequest`, the inserted key maps to the new sink. -/
theorem lookup_insertRequest_self (table : List (DownloadId × Sink))
    (t : DownloadId) (s : Sink) : (insertRequest table t s).lookup t = some s := by
  simp [insertRequest, List.lookup]

/-- After `insertRequest`, every other key maps as before. -/
theorem lookup_insertRequest_other (table : List (DownloadId × Sink))
    (t u : DownloadId) (s : Sink) (h : u ≠ t) :
    (insertRequest table t s).lookup u = table.lookup u := by
  have hne : (u == t) = false := by simp [h]
  simp [insertRequest, List.lookup, hne, lookup_filter_ne table u t h]

/-- Claim C5 counterexample: on the online path the presence check and the
link fetch are two separate read acquisitions of the Registry lock, not a
single get-if-present access — a concrete run records two acquisitions. -/
theorem C5_counterexample :
    registryReadAcquisitions
      (__download ⟨[(42, 5)], [], "http://h"⟩ 42 1 7 0 true).events = 2 := by
  decide

/-- Claim C5 (amended): on the online path `__download` performs the
presence check and the link fetch under two separate read acquisitions of
the Registry lock (not one get-if-present access); because the first read
guard is held across the handler body, both acquisitions observe the same
registry contents, so the fetch after a successful presence check cannot
observe a disconnect. -/
theorem C5_two_separate_read_acquisitions (st : SrvState) (sid : ServerId)
    (fid : FileId) (rng : DownloadId) (sk : Nat) (sOk : Bool)
    (hon : (st.servers.lookup sid).isSome) :
    registryReadAcquisitions (__download st sid fid rng sk sOk).events = 2 ∧
    (__download st sid fid rng sk sOk).outcome ≠ Outcome.panickedAtLinkFetch := by
  rcases Option.isSome_iff_exists.mp hon with ⟨l, hl⟩
  by_cases hs : sOk <;>
    simp [__download, hl, hs, registryReadAcquisitions, isServersReadAcq]

/-- Witness for C5 (amended) at a concrete online state. -/
theorem C5_two_separate_read_acquisitions_witness :
    registryReadAcquisitions
      (__download ⟨[(9, 3)], [], "u"⟩ 9 2 5 1 true).events = 2 :=
  (C5_two_separate_read_acquisitions ⟨[(9, 3)], [], "u"⟩ 9 2 5 1 true (by decide)).1

/-- Claim C9 counterexample: the error branch of the registry
`get(&server_id).unwrap()` is NOT reachable — the first read guard on
`state.servers` is held across the handler body, so boths reads observe the
same map and the fetch after a successful presence check always succeeds;
no input makes the handler panic at the link fetch. -/
theorem C9_counterexample :
    ¬ ∃ (st : SrvState) (sid : ServerId) (fid : FileId) (rng : DownloadId)
        (sk : Nat) (sOk : Bool),
      (__download st sid fid rng sk sOk).outcome = Outcome.panickedAtLinkFetch := by
  rintro ⟨st, sid, fid, rng, sk, sOk, h⟩
  by_cases hon : (st.servers.lookup sid).isSome
  · rcases Option.isSome_iff_exists.mp hon with ⟨l, hl⟩
    by_cases hs : sOk <;> simp [__download, hl, hs] at h
  · rw [Option.not_isSome_iff_eq_none] at hon
    simp [__download, hon] at h

/-- Claim C9 (amended): on the online path both the link fetch and the
send are unwrapped; the send unwrap's error branch is reachable — when the
channel send to the agent link fails, the handler panics and produces no
HTTP response — but the link-fetch unwrap's error branch is unreachable,
because the first registry read guard is held across the handler so the
entry observed by the presence check is still present at the fetch. -/
theorem C9_send_unwrap_panics (st : SrvState) (sid : ServerId) (fid : FileId)
    (rng : DownloadId) (sk : Nat)
    (hon : (st.servers.lookup sid).isSome) :
    (__download st sid fid rng sk false).outcome = Outcome.panickedAtSend ∧
    (∀ r : HttpResponse,
      (__download st sid fid rng sk false).outcome ≠ Outcome.response r) ∧
    (∀ sOk : Bool,
      (__download st sid fid rng sk sOk).outcome ≠ Outcome.panickedAtLinkFetch) := by
  rcases Option.isSome_iff_exists.mp hon with ⟨l, hl⟩
  refine ⟨by simp [__download, hl], by simp [__download, hl], ?_⟩
  intro sOk
  by_cases hs : sOk <;> simp [__download, hl, hs]

/-- Witness for C9 (amended) at a concrete online state with a failing
send. -/
theorem C9_send_unwrap_panics_witness :
    (__download ⟨[(9, 3)], [], "u"⟩ 9 2 5 1 false).outcome
      = Outcome.panickedAtSend :=
  (C9_send_unwrap_panics ⟨[(9, 3)], [], "u"⟩ 9 2 5 1 (by decide)).1

/-- Claim C3 counterexample: when the random draw collides with a
currently-open ticket, the existing open entry IS overwritten — there is
no collision check and `HashMap::insert` replaces the old sink. -/
theorem C3_counterexample :
    (__download ⟨[(42, 5)], [(7, ⟨99, [[1]], false⟩)], "u"⟩ 42 1 7 0
        true).state.requests.lookup 7 = some (freshSink 0) ∧
    freshSink 0 ≠ (⟨99, [[1]], false⟩ : Sink) := by
  decide

/-- Claim C3 (amended): opening a Correlation Table entry draws a single
random ticket with no collision check against the open tickets; the insert
registers exactly one sink under the drawn ticket (so at most one sink per
ticket holds in the table), leaves every other ticket's entry unchanged,
and on collision with a currently-open ticket the existing entry is
overwritten by the new sink rather than regenerated. -/
theorem C3_no_collision_check_insert_overwrites (st : SrvState)
    (sid : ServerId) (fid : FileId) (rng : DownloadId) (sk : Nat) (sOk : Bool)
    (hon : (st.servers.lookup sid).isSome) :
    (__download st sid fid rng sk sOk).state.requests.lookup rng
        = some (freshSink sk) ∧
    (∀ t : DownloadId, t ≠ rng →
      (__download st sid fid rng sk sOk).state.requests.lookup t
        = st.requests.lookup t) ∧
    ((__download st sid fid rng sk sOk).state.requests.filter
        (fun p => p.1 == rng)).length = 1 := by
  rcases Option.isSome_iff_exists.mp hon with ⟨l, hl⟩
  have hreq : (__download st sid fid rng sk sOk).state.requests
      = insertRequest st.requests rng (freshSink sk) := by
    by_cases hs : sOk <;> simp [__download, hl, hs]
  refine ⟨?_, ?_, ?_⟩
  · rw [hreq]; exact lookup_insertRequest_self st.requests rng (freshSink sk)
  · intro t ht; rw [hreq]
    exact lookup_insertRequest_other st.requests rng t (freshSink sk) ht
  · rw [hreq]
    simp [insertRequest, List.filter_cons, filter_eq_filter_ne st.requests rng]

/-- Witness for C3 (amended) at a concrete colliding state. -/
theorem C3_no_collision_check_insert_overwrites_witness :
    (__download ⟨[(42, 5)], [(7, ⟨99, [[1]], false⟩)], "u"⟩ 42 1 7 3
        true).state.requests.lookup 7 = some (freshSink 3) :=
  (C3_no_collision_check_insert_overwrites
    ⟨[(42, 5)], [(7, ⟨99, [[1]], false⟩)], "u"⟩ 42 1 7 3 true (by decide)).1

/-- Claim C2 (code evaluated at the failing input): a successful download
creates the Correlation Table entry for its ticket, and the entry is still
present when the handler returns the stream and still present after the
stream is abandoned — `__download` contains no removal and its stream
generator registers no cleanup, so no exit path closes the entry. -/
theorem C2_entry_never_removed :
    (__download ⟨[(42, 5)], [], "http://h"⟩ 42 1 7 0 true).outcome
        = Outcome.response ⟨200, "text/html", Body.stream 7⟩ ∧
    (__download ⟨[(42, 5)], [], "http://h"⟩ 42 1 7 0
        true).state.requests.lookup 7 = some (freshSink 0) ∧
    (abandonStream (__download ⟨[(42, 5)], [], "http://h"⟩ 42 1 7 0
        true).state).requests.lookup 7 = some (freshSink 0) := by
  refine ⟨by decide, by decide, by decide⟩

/-- The stream yields exactly the buffered chunks, front first. -/
theorem drainStream_eq_buffer (s : Sink) : drainStream s = s.buffer := by
  rcases s with ⟨i, b, cl⟩
  induction b with
  | nil => simp [drainStream]
  | cons c rest ih => simp [drainStream, ih]

/-- Pushing a sequence of chunks appends them to the buffer in order. -/
theorem foldl_push_buffer (cs : List Chunk) :
    ∀ s : Sink, (cs.foldl Sink.push s).buffer = s.buffer ++ cs := by
  induction cs with
  | nil => intro s; simp
  | cons c rest ih =>
    intro s
    rw [List.foldl_cons, ih (s.push c)]
    simp [Sink.push]

/-- Updating the sink of a present ticket: the lookup now returns the new
sink. -/
theorem lookup_updateSink (table : List (DownloadId × Sink)) (t : DownloadId)
    (s0 s : Sink) (h : table.lookup t = some s0) :
    (updateSink table t s).lookup t = some s := by
  induction table with
  | nil => simp [List.lookup] at h
  | cons kv rest ih =>
    by_cases hk : kv.1 = t
    · simp only [updateSink, List.map_cons]
      rw [if_pos hk]
      simp [List.lookup]
    · have hb2 : (t == kv.1) = false := beq_eq_false_iff_ne.mpr (Ne.symm hk)
      simp [List.lookup, hb2] at h
      have ih2 := ih h
      simp only [updateSink] at ih2
      simp only [updateSink, List.map_cons]
      rw [if_neg hk]
      simpa [List.lookup, hb2] using ih2

/-- Routing a chunk sequence for a registered ticket succeeds and leaves
the ticket mapped to its sink with the chunks pushed in order. -/
theorem routeAll_ok (cs : List Chunk) :
    ∀ (table : List (DownloadId × Sink)) (t : DownloadId) (s : Sink),
    table.lookup t = some s →
    ∃ table2, routeAll table t cs = Except.ok table2 ∧
      table2.lookup t = some (cs.foldl Sink.push s) := by
  induction cs with
  | nil =>
    intro table t s h
    exact ⟨table, rfl, by simpa using h⟩
  | cons c rest ih =>
    intro table t s h
    have hroute : route table t c = Except.ok (updateSink table t (s.push c)) := by
      simp [route, h]
    have hlk : (updateSink table t (s.push c)).lookup t = some (s.push c) :=
      lookup_updateSink table t s (s.push c) h
    rcases ih (updateSink table t (s.push c)) t (s.push c) hlk with ⟨table2, h1, h2⟩
    exact ⟨table2, by simp [routeAll, hroute, h1], by simpa using h2⟩

/-- Claim C4: for every ticket minted by a successful `__download` and
every sequence of chunks routed to that ticket, the returned stream yields
exactly those chunks in the order `route` was called (FIFO per ticket),
ending when the producer side signals completion. -/
theorem C4_stream_fifo (st : SrvState) (sid : ServerId) (fid : FileId)
    (rng : DownloadId) (sk : Nat) (cs : List Chunk)
    (hon : (st.servers.lookup sid).isSome) :
    (__download st sid fid rng sk true).outcome
        = Outcome.response ⟨200, "text/html", Body.stream rng⟩ ∧
    ∃ table2,
      routeAll (__download st sid fid rng sk true).state.requests rng cs
          = Except.ok table2 ∧
      ∃ s2, table2.lookup rng = some s2 ∧ drainStream s2 = cs := by
  rcases Option.isSome_iff_exists.mp hon with ⟨l, hl⟩
  constructor
  · simp [__download, hl]
  · have hreq : (__download st sid fid rng sk true).state.requests
        = insertRequest st.requests rng (freshSink sk) := by
      simp [__download, hl]
    rw [hreq]
    have h0 : (insertRequest st.requests rng (freshSink sk)).lookup rng
        = some (freshSink sk) :=
      lookup_insertRequest_self st.requests rng (freshSink sk)
    rcases routeAll_ok cs (insertRequest st.requests rng (freshSink sk)) rng
        (freshSink sk) h0 with ⟨table2, h1, h2⟩
    refine ⟨table2, h1, cs.foldl Sink.push (freshSink sk), h2, ?_⟩
    rw [drainStream_eq_buffer, foldl_push_buffer]
    simp [freshSink]

/-- Witness for C4 at a concrete online state with two routed chunks. -/
theorem C4_stream_fifo_witness :
    (__download ⟨[(42, 5)], [], "u"⟩ 42 1 7 0 true).outcome
        = Outcome.response ⟨200, "text/html", Body.stream 7⟩ ∧
    ∃ table2,
      routeAll (__download ⟨[(42, 5)], [], "u"⟩ 42 1 7 0 true).state.requests 7
          [[1, 2], [3, 4]] = Except.ok table2 ∧
      ∃ s2, table2.lookup 7 = some s2 ∧ drainStream s2 = [[1, 2], [3, 4]] :=
  C4_stream_fifo ⟨[(42, 5)], [], "u"⟩ 42 1 7 0 [[1, 2], [3, 4]] (by decide)

/-- Stripping a prefix from exactly that prefix plus a remainder yields the
remainder. -/
theorem stripPrefixChars_append (p r : List Char) :
    stripPrefixChars p (p ++ r) = some r := by
  induction p with
  | nil => rfl
  | cons c cs ih => simp [stripPrefixChars, ih]

/-- Splitting a quote-free list followed by a quote yields the list and an
empty remainder. -/
theorem splitAtQuote_append (l : List Char) (h : sqChar ∉ l) :
    splitAtQuote (l ++ [sqChar]) = some (l, []) := by
  induction l with
  | nil => simp [splitAtQuote]
  | cons c cs ih =>
    have hc : c ≠ sqChar := fun e => h (by simp [e])
    have hcs : sqChar ∉ cs := fun hm => h (List.mem_cons_of_mem _ hm)
    simp [splitAtQuote, hc, ih hcs]

/-- For a quote-free input the search term built by `get_search_term` is
recognized as a plain equality on `unique_id` matching exactly that
input. -/
theorem parseUniqueIdEq_roundtrip (s : String) (h : sqChar ∉ s.toList) :
    parseUniqueIdEq ("unique_id = " ++ sqStr ++ s ++ sqStr) = some s := by
  obtain ⟨l⟩ := s
  have h2 : sqChar ∉ l := h
  have h1 : ("unique_id = " ++ sqStr ++ String.mk l ++ sqStr).toList
      = ("unique_id = " ++ sqStr).toList ++ (l ++ [sqChar]) := by
    simp [String.toList, sqStr]
  unfold parseUniqueIdEq
  rw [h1, stripPrefixChars_append]
  simp [splitAtQuote_append l h2]

/-- Claim C10: `Search::UniqueId(s).get_search_term()` is exactly the
concatenation `unique_id = '` ++ s ++ `'`; `search_database` splices that
text verbatim into the SQL it executes; and for a caller-supplied unique
id containing a single quote the executed WHERE clause is not an equality
match on `unique_id` — the injected text escapes the string literal. -/
theorem C10_search_term_injectable :
    (∀ s : String,
      (Search.UniqueId s).get_search_term = "unique_id = " ++ sqStr ++ s ++ sqStr) ∧
    (∀ se : Search, search_query se
        = "\n        SELECT * from agents\n        WHERE " ++ se.get_search_term
          ++ "\n        ORDER BY created_at DESC\n    ") ∧
    sqChar ∈ injected.toList ∧
    parseUniqueIdEq (Search.UniqueId injected).get_search_term = none := by
  refine ⟨fun s => rfl, fun se => rfl, by decide, by decide⟩

/-- Claim C8: the pool is built with the fixed constants max-open 32,
max-idle 8 and a 15-second acquire timeout, and on a timed-out
acquisition every Agent Store operation fails with the pool-exhausted
failure instead of waiting unboundedly. -/
theorem C8_pool_bounds_and_exhaustion :
    (∀ cfg : DbConfig, (create_pool cfg).config
        = ⟨DB_POOL_MAX_OPEN, DB_POOL_MAX_IDLE, some DB_POOL_TIMEOUT_SECONDS⟩) ∧
    DB_POOL_MAX_OPEN = 32 ∧ DB_POOL_MAX_IDLE = 8 ∧ DB_POOL_TIMEOUT_SECONDS = 15 ∧
    (∀ (st : Store) (uid : String),
      add_agent PoolAcquire.timedOut st uid = Except.error DbError.PoolExhausted) ∧
    (∀ (st : Store) (se : Search),
      search_database PoolAcquire.timedOut st se = Except.error DbError.PoolExhausted) ∧
    (∀ (st : Store) (se : Search),
      se.find PoolAcquire.timedOut st = Except.error DbError.PoolExhausted) ∧
    (∀ (st : Store) (i ts : Nat),
      update_agent PoolAcquire.timedOut st i ts = Except.error DbError.PoolExhausted) ∧
    (∀ (st : Store) (i : Nat),
      delete_agent PoolAcquire.timedOut st i = Except.error DbError.PoolExhausted) :=
  ⟨fun _ => rfl, rfl, rfl, rfl, fun _ _ => rfl, fun _ _ => rfl, fun _ _ => rfl,
    fun _ _ _ => rfl, fun _ _ => rfl⟩

/-- Claim C7: `add` fails with `DuplicateKey` whenever a row with the
given `unique_id` already exists; in particular adding the same
`unique_id` twice fails the second time with `DuplicateKey`. -/
theorem C7_add_duplicate_fails (st : Store) (uid : String) (a : Agent)
    (st2 : Store) :
    (st.rows.any (fun r => r.unique_id == uid) = true →
      add_agent PoolAcquire.ok st uid = Except.error DbError.DuplicateKey) ∧
    (add_agent PoolAcquire.ok st uid = Except.ok (a, st2) →
      add_agent PoolAcquire.ok st2 uid = Except.error DbError.DuplicateKey) := by
  constructor
  · intro hdup
    simp [add_agent, get_db_con, hdup]
  · intro hok
    by_cases hd : st.rows.any (fun r => r.unique_id == uid) = true
    · simp [add_agent, get_db_con, hd] at hok
    · have hd2 : st.rows.any (fun r => r.unique_id == uid) = false :=
        Bool.eq_false_iff.mpr hd
      simp [add_agent, get_db_con, hd2] at hok
      obtain ⟨ha, hst2⟩ := hok
      subst hst2
      simp [add_agent, get_db_con, List.any_append, hd2, ← ha]

/-- Witness for C7: both duplicate paths at concrete stores. -/
theorem C7_add_duplicate_fails_witness :
    add_agent PoolAcquire.ok ⟨[⟨0, "x", some 0, none⟩], 1, 1⟩ "x"
        = Except.error DbError.DuplicateKey ∧
    add_agent PoolAcquire.ok ⟨[⟨5, "x", some 3, none⟩], 6, 4⟩ "x"
        = Except.error DbError.DuplicateKey :=
  ⟨(C7_add_duplicate_fails ⟨[], 0, 0⟩ "x" ⟨0, "x", some 0, none⟩
      ⟨[⟨0, "x", some 0, none⟩], 1, 1⟩).2 rfl,
   (C7_add_duplicate_fails ⟨[⟨5, "x", some 3, none⟩], 6, 4⟩ "x"
      ⟨0, "", none, none⟩ ⟨[], 0, 0⟩).1 (by decide)⟩

/-- Claim C6: after a successful `add` with a (quote-free) unique id, a
`find_by_unique_id` with the same id returns that agent, whose
`unique_id` matches and whose `created_at` is populated. -/
theorem C6_add_find_roundtrip (st : Store) (s : String) (a : Agent)
    (st2 : Store) (hq : sqChar ∉ s.toList)
    (hadd : add_agent PoolAcquire.ok st s = Except.ok (a, st2)) :
    (Search.UniqueId s).find PoolAcquire.ok st2 = Except.ok (some a) ∧
    a.unique_id = s ∧ a.created_at.isSome = true := by
  by_cases hd : st.rows.any (fun r => r.unique_id == s) = true
  · simp [add_agent, get_db_con, hd] at hadd
  · have hd2 : st.rows.any (fun r => r.unique_id == s) = false :=
      Bool.eq_false_iff.mpr hd
    simp [add_agent, get_db_con, hd2] at hadd
    obtain ⟨ha, hst2⟩ := hadd
    subst hst2
    have hall : ∀ x ∈ st.rows, (x.unique_id == s) = false := by
      intro x hx
      cases hb : (x.unique_id == s) with
      | false => rfl
      | true =>
        have : st.rows.any (fun r => r.unique_id == s) = true :=
          List.any_eq_true.mpr ⟨x, hx, hb⟩
        simp [this] at hd2
    have hfil : st.rows.filter (fun r => r.unique_id == s) = [] :=
      List.filter_eq_nil_iff.mpr (fun x hx => by simp [hall x hx])
    have hterm := parseUniqueIdEq_roundtrip s hq
    refine ⟨?_, by simp [← ha], by simp [← ha]⟩
    simp [Search.find, search_database, get_db_con, Search.get_search_term,
      runSelect, hterm, List.filter_append, hfil, ← ha,
      sortByCreatedAtDesc, insertByCreatedAtDesc]

/-- Witness for C6 at a concrete store and unique id. -/
theorem C6_add_find_roundtrip_witness :
    (Search.UniqueId "x").find PoolAcquire.ok ⟨[⟨0, "x", some 0, none⟩], 1, 1⟩
        = Except.ok (some ⟨0, "x", some 0, none⟩) :=
  (C6_add_find_roundtrip ⟨[], 0, 0⟩ "x" ⟨0, "x", some 0, none⟩
    ⟨[⟨0, "x", some 0, none⟩], 1, 1⟩ (by decide) rfl).1
